import Mathlib

/-!
# Verification of the repomd repository-metadata reader

A shallow embedding of `repomd.py`, a reader for RPM "repodata" package
metadata with two backends: an XML-element-backed one (`Repo` / `Package`)
and a sqlite-row-backed one (`RepoSQL` / `PackageSQL`).  Pure computations
(version-string formatting, name lookup, descriptor selection, compression
dispatch) are translated into executable Lean functions; Python exceptions
are modelled with `Except` over an explicit error type; external I/O
(network fetch, gzip decoding, sqlite access) is modelled by passing the
fetched/decoded data in as explicit parameters.
-/

namespace Repomd

/-- The Python exception kinds the embedded code can raise. -/
inductive PyError where
  | attributeError
  | typeError
  | keyError
  | valueError (msg : String)
  deriving DecidableEq, Repr

instance {ε α : Type} [DecidableEq ε] [DecidableEq α] : DecidableEq (Except ε α) := by
  intro a b
  cases a <;> cases b <;>
    first
      | exact .isFalse (by intro h; exact Except.noConfusion h)
      | · rename_i x y
          exact if h : x = y then .isTrue (by rw [h]) else
            .isFalse (by intro hc; injection hc; contradiction)

/-- Numeric value of an ASCII digit character. -/
def digitVal (c : Char) : Nat := c.toNat - 48

/-- Read a list of ASCII digits as a base-10 natural number. -/
def digitsToNat (l : List Char) : Nat :=
  List.foldl (fun a c => 10 * a + digitVal c) 0 l

/-- Second stage of `pyInt`: after the optional sign, a nonempty run of
digits is required. -/
def pyIntDigits (sign : Int) (ds : List Char) : Option Int :=
  if ds.isEmpty then Option.none
  else if ds.all Char.isDigit then some (sign * (digitsToNat ds : Int))
  else Option.none

/-- Python's `int(s)` on a string: optional surrounding whitespace, an
optional sign, then decimal digits; any other input raises `ValueError`,
modelled as `none`. -/
def pyInt (s : String) : Option Int :=
  let trimmed :=
    ((s.toList.dropWhile Char.isWhitespace).reverse.dropWhile
      Char.isWhitespace).reverse
  match trimmed with
  | '+' :: rest => pyIntDigits 1 rest
  | '-' :: rest => pyIntDigits (-1) rest
  | rest => pyIntDigits 1 rest

/-- Python f-string interpolation of a possibly-`None` string value:
`None` renders as the text `"None"`. -/
def fstr : Option String → String
  | some s => s
  | Option.none => "None"

/-! ## XML backend: the parsed `primary.xml` tree

`Package.__slots__ = ['_element']`: a package is a view on one
`common:package` element.  The element is modelled by the parts the
accessors query: the text of its `common:name` / `common:arch` /
`common:summary` / `common:description` children (`findtext` gives `none`
when the child is missing) and its `common:version` child with the
`epoch` / `ver` / `rel` attributes (`get` gives `none` when the attribute
is absent; a missing `common:version` child makes `find` return `None`,
so any later `.get` on it raises `AttributeError`). -/

/-- The `common:version` child element of a package element, with its
three attributes as lxml `.get` returns them (absent attribute = `none`). -/
structure VersionElement where
  epoch : Option String
  ver : Option String
  rel : Option String
  deriving DecidableEq, Repr

/-- One `common:package` element of the parsed primary metadata tree. -/
structure PackageElement where
  name : Option String
  arch : Option String
  summary : Option String
  description : Option String
  version : Option VersionElement
  deriving DecidableEq, Repr

/-- The root `metadata` element of primary.xml: its `packages` attribute
and its child elements in document order. -/
structure MetadataElement where
  packages : Option String
  children : List PackageElement
  deriving DecidableEq, Repr

/-- `class Package`: wraps one XML element. -/
structure Package where
  _element : PackageElement
  deriving DecidableEq, Repr

/-- `class Repo`: base URL plus the parsed metadata tree. -/
structure Repo where
  baseurl : String
  _metadata : MetadataElement
  deriving DecidableEq, Repr

/-- `Package.name`: `findtext('common:name')`. -/
def Package.name (p : Package) : Option String := p._element.name

/-- `Package.arch`: `findtext('common:arch')`. -/
def Package.arch (p : Package) : Option String := p._element.arch

/-- `Package.summary`: `findtext('common:summary')`. -/
def Package.summary (p : Package) : Option String := p._element.summary

/-- `Package.epoch`: `self._version_info.get('epoch')`.  When the
`common:version` child is missing, `_version_info` is `None` and the
attribute access raises `AttributeError`; otherwise the raw attribute
value is returned (`none` when the attribute is absent). -/
def Package.epochE (p : Package) : Except PyError (Option String) :=
  match p._element.version with
  | Option.none => .error .attributeError
  | some vi => .ok vi.epoch

/-- `Package.vr`: `f'{v}-{r}'` from the version element's attributes. -/
def Package.vrE (p : Package) : Except PyError String :=
  match p._element.version with
  | Option.none => .error .attributeError
  | some vi => .ok (fstr vi.ver ++ "-" ++ fstr vi.rel)

/-- `Package.evr`: reads `epoch`/`ver`/`rel` off the version element and
branches on the truthiness of `int(e)`.  `int(None)` raises `TypeError`;
an unparseable epoch string raises `ValueError`. -/
def Package.evrE (p : Package) : Except PyError String :=
  match p._element.version with
  | Option.none => .error .attributeError
  | some vi =>
    match vi.epoch with
    | Option.none => .error .typeError
    | some e =>
      match pyInt e with
      | Option.none => .error (.valueError e)
      | some n =>
        if n ≠ 0 then .ok (e ++ ":" ++ fstr vi.ver ++ "-" ++ fstr vi.rel)
        else .ok (fstr vi.ver ++ "-" ++ fstr vi.rel)

/-- `Package.nevr`: `f'{self.name}-{self.evr}'`. -/
def Package.nevrE (p : Package) : Except PyError String :=
  (p.evrE).map (fun e => fstr p.name ++ "-" ++ e)

/-- `Package.nevra`: `f'{self.nevr}.{self.arch}'`. -/
def Package.nevraE (p : Package) : Except PyError String :=
  (p.nevrE).map (fun s => s ++ "." ++ fstr p.arch)

/-- The identity 5-tuple type shared by both backends (XML accessors can
return `None`, so each component is an `Option`). -/
abbrev NevraTuple :=
  Option String × Option String × Option String × Option String × Option String

/-- `Package._nevra_tuple`: `(name, epoch, version, release, arch)`.
Reading `epoch`/`version`/`release` raises `AttributeError` when the
`common:version` child is missing. -/
def Package.nevra_tupleE (p : Package) : Except PyError NevraTuple :=
  match p._element.version with
  | Option.none => .error .attributeError
  | some vi => .ok (p._element.name, vi.epoch, vi.ver, vi.rel, p._element.arch)

/-- The XPath query both `Repo.find` and `Repo.findall` issue:
`common:package[common:name="{name}"]`, i.e. the child package elements
whose `common:name` child's text equals `name`, in document order. -/
def Repo.xmlMatches (r : Repo) (name : String) : List PackageElement :=
  r._metadata.children.filter (fun el => decide (el.name = some name))

/-- `Repo.findall`: one `Package` per matching element. -/
def Repo.findall (r : Repo) (name : String) : List Package :=
  (r.xmlMatches name).map Package.mk

/-- `Repo.find`: `Package(results[-1])` when the query matched, else
`None`. -/
def Repo.find (r : Repo) (name : String) : Option Package :=
  match (r.xmlMatches name).getLast? with
  | some el => some (Package.mk el)
  | Option.none => Option.none

/-- `Repo.__iter__`: yields a `Package` for every child element of the
metadata root, in document order. -/
def Repo.iter (r : Repo) : List Package :=
  r._metadata.children.map Package.mk

/-- `Repo.__len__`: `int(self._metadata.get('packages'))`.  A missing
attribute gives `int(None)` (`TypeError`); a non-numeric attribute raises
`ValueError`. -/
def Repo.lenE (r : Repo) : Except PyError Int :=
  match r._metadata.packages with
  | Option.none => .error .typeError
  | some s =>
    match pyInt s with
    | Option.none => .error (.valueError s)
    | some n => .ok n

/-! ## Database backend: rows of the `packages` table

`PackageSQL.__init__` binds all 26 positional columns of a row at
construction time, converting `time_build` and the three size columns to
integers when they are truthy (empty/absent stays `None`).  Column values
are modelled as strings, with the empty string standing for an
absent/falsy value. -/

/-- One raw row of the `packages` table, in the fixed 26-column schema
order matching the parameters of `PackageSQL.__init__`. -/
structure Row where
  pkgKey : Int
  pkgId : String
  name : String
  arch : String
  version : String
  epoch : String
  release : String
  summary : String
  description : String
  url : String
  timeFile : String
  timeBuild : String
  rpmLicense : String
  rpmVendor : String
  rpmGroup : String
  rpmBuildhost : String
  rpmSourcerpm : String
  rpmHeaderStart : Int
  rpmHeaderEnd : Int
  rpmPackager : String
  sizePackage : String
  sizeInstalled : String
  sizeArchive : String
  locationHref : String
  locationBase : String
  checksumType : String
  deriving DecidableEq, Repr

/-- `class PackageSQL`: the fields as stored by `__init__`.  A
`datetime` is represented by its integer timestamp. -/
structure PackageSQL where
  _pkgKey : Int
  _pkgId : String
  name : String
  arch : String
  version : String
  epoch : String
  release : String
  summary : String
  description : String
  url : String
  time_file : String
  build_time : Option Int
  license : String
  vendor : String
  rpm_group : String
  buildhost : String
  sourcerpm : String
  rpm_header_start : Int
  rpm_header_end : Int
  packager : String
  package_size : Option Int
  installed_size : Option Int
  archive_size : Option Int
  location : String
  location_base : String
  checksum_type : String
  deriving DecidableEq, Repr

/-- `int(x) if x else None`: the conversion `__init__` applies to
`time_build` and the size columns.  An unparseable truthy value raises
`ValueError`. -/
def intIfTruthy (s : String) : Except PyError (Option Int) :=
  if s = "" then .ok Option.none
  else
    match pyInt s with
    | some n => .ok (some n)
    | Option.none => .error (.valueError s)

/-- `PackageSQL(*row)`: binds every column; the four integer conversions
run in source order (`time_build`, then the three sizes) and the first
failing one raises. -/
def packageSQLInit (r : Row) : Except PyError PackageSQL :=
  match intIfTruthy r.timeBuild, intIfTruthy r.sizePackage,
      intIfTruthy r.sizeInstalled, intIfTruthy r.sizeArchive with
  | .ok bt, .ok sp, .ok si, .ok sa =>
    .ok ⟨r.pkgKey, r.pkgId, r.name, r.arch, r.version, r.epoch, r.release,
      r.summary, r.description, r.url, r.timeFile, bt, r.rpmLicense,
      r.rpmVendor, r.rpmGroup, r.rpmBuildhost, r.rpmSourcerpm,
      r.rpmHeaderStart, r.rpmHeaderEnd, r.rpmPackager, sp, si, sa,
      r.locationHref, r.locationBase, r.checksumType⟩
  | .error e, _, _, _ => .error e
  | _, .error e, _, _ => .error e
  | _, _, .error e, _ => .error e
  | _, _, _, .error e => .error e

/-- `PackageSQL.vr`: `f'{self.version}-{self.release}'`. -/
def PackageSQL.vr (q : PackageSQL) : String := q.version ++ "-" ++ q.release

/-- `PackageSQL.nvr`: `f'{self.name}-{self.vr}'`. -/
def PackageSQL.nvr (q : PackageSQL) : String := q.name ++ "-" ++ q.vr

/-- `PackageSQL.evr`: branches on the truthiness of `int(self.epoch)`;
an unparseable epoch raises `ValueError`. -/
def PackageSQL.evrE (q : PackageSQL) : Except PyError String :=
  match pyInt q.epoch with
  | Option.none => .error (.valueError q.epoch)
  | some n =>
    if n ≠ 0 then .ok (q.epoch ++ ":" ++ q.version ++ "-" ++ q.release)
    else .ok q.vr

/-- `PackageSQL.nevr`: `f'{self.name}-{self.evr}'`. -/
def PackageSQL.nevrE (q : PackageSQL) : Except PyError String :=
  (q.evrE).map (fun e => q.name ++ "-" ++ e)

/-- `PackageSQL.nevra`: `f'{self.nevr}.{self.arch}'`. -/
def PackageSQL.nevraE (q : PackageSQL) : Except PyError String :=
  (q.nevrE).map (fun s => s ++ "." ++ q.arch)

/-- `PackageSQL._nevra_tuple`: `(name, epoch, version, release, arch)`;
all five fields are plain strings, so this never raises. -/
def PackageSQL.nevra_tuple (q : PackageSQL) :
    String × String × String × String × String :=
  (q.name, q.epoch, q.version, q.release, q.arch)

/-- Lift an all-string 5-tuple into the shared `NevraTuple` type (Python
compares tuples componentwise, and a plain string only ever equals a
plain string). -/
def liftTuple (t : String × String × String × String × String) : NevraTuple :=
  (some t.1, some t.2.1, some t.2.2.1, some t.2.2.2.1, some t.2.2.2.2)

/-- `class RepoSQL` as a query surface: base URL plus the contents of the
`packages` table in storage order (the materialized sqlite file behind
`self.cursor`). -/
structure RepoSQL where
  baseurl : String
  rows : List Row
  deriving DecidableEq, Repr

/-- Python list-comprehension / generator semantics over fallible
element construction: elements are built left to right and the first
exception propagates. -/
def mapEx {α β : Type} (f : α → Except PyError β) : List α → Except PyError (List β)
  | [] => .ok []
  | a :: l =>
    match f a with
    | .error e => .error e
    | .ok b =>
      match mapEx f l with
      | .error e => .error e
      | .ok bs => .ok (b :: bs)

/-- The row list produced by
`SELECT * FROM packages WHERE name=?;`: the rows whose `name` column
equals the parameter, in storage order. -/
def RepoSQL.sqlMatches (r : RepoSQL) (name : String) : List Row :=
  r.rows.filter (fun row => decide (row.name = name))

/-- `RepoSQL.findall`: one `PackageSQL` per matching row. -/
def RepoSQL.findallE (r : RepoSQL) (name : String) :
    Except PyError (List PackageSQL) :=
  mapEx packageSQLInit (r.sqlMatches name)

/-- `RepoSQL.find`: `PackageSQL(*results[-1])` when the query matched,
else `None`. -/
def RepoSQL.findE (r : RepoSQL) (name : String) :
    Except PyError (Option PackageSQL) :=
  match (r.sqlMatches name).getLast? with
  | some row => (packageSQLInit row).map some
  | Option.none => .ok Option.none

/-- `RepoSQL.__iter__`: `SELECT * FROM packages;`, one `PackageSQL` per
row in storage order. -/
def RepoSQL.iterE (r : RepoSQL) : Except PyError (List PackageSQL) :=
  mapEx packageSQLInit r.rows

/-- `RepoSQL.__len__`: `SELECT COUNT(*) FROM packages;` — the number of
rows in the table. -/
def RepoSQL.len (r : RepoSQL) : Nat := r.rows.length

/-! ## Equality and hashing

Both `__eq__` methods evaluate `self._nevra_tuple == other._nevra_tuple`.
The right-hand operand is an arbitrary Python value; when it does not
expose `_nevra_tuple` the attribute access raises `AttributeError`
(Python propagates exceptions from `__eq__`). -/

/-- A Python value appearing as the right operand of `==`. -/
inductive PyValue where
  | pkgXml (p : Package)
  | pkgSql (q : PackageSQL)
  | vStr (s : String)
  | vInt (n : Int)
  | vNone
  deriving Repr

/-- `other._nevra_tuple`: succeeds only for the two record classes. -/
def PyValue.nevraTupleE : PyValue → Except PyError NevraTuple
  | .pkgXml p => p.nevra_tupleE
  | .pkgSql q => .ok (liftTuple q.nevra_tuple)
  | .vStr _ => .error .attributeError
  | .vInt _ => .error .attributeError
  | .vNone => .error .attributeError

/-- `Package.__eq__`: `self._nevra_tuple == other._nevra_tuple`, with
`self` evaluated first. -/
def Package.eqV (p : Package) (other : PyValue) : Except PyError Bool :=
  match p.nevra_tupleE with
  | .error e => .error e
  | .ok ta =>
    match other.nevraTupleE with
    | .error e => .error e
    | .ok tb => .ok (decide (ta = tb))

/-- `PackageSQL.__eq__`: `self._nevra_tuple == other._nevra_tuple`
(`self`'s tuple never raises). -/
def PackageSQL.eqV (q : PackageSQL) (other : PyValue) : Except PyError Bool :=
  match other.nevraTupleE with
  | .error e => .error e
  | .ok tb => .ok (decide (liftTuple q.nevra_tuple = tb))

/-- A deterministic model of CPython's string hash (within one process,
`hash` is a fixed function of the string's characters). -/
def strHash (s : String) : Nat :=
  List.foldl (fun a c => a * 131 + c.toNat + 1) 7 s.toList

/-- Hash of one tuple component (`None` hashes unlike any string here). -/
def optHash : Option String → Nat
  | Option.none => 0
  | some s => strHash s + 1

/-- A deterministic model of CPython's tuple hash on the 5-tuple: what
the theorems need is that it is a function of the tuple alone. -/
def pyHashTuple (t : NevraTuple) : Nat :=
  (((optHash t.1 * 1000003 + optHash t.2.1) * 1000003 + optHash t.2.2.1)
      * 1000003 + optHash t.2.2.2.1) * 1000003 + optHash t.2.2.2.2

/-- `Package.__hash__`: `hash(self._nevra_tuple)`. -/
def Package.hashE (p : Package) : Except PyError Nat :=
  (p.nevra_tupleE).map pyHashTuple

/-- `PackageSQL.__hash__`: `hash(self._nevra_tuple)`. -/
def PackageSQL.hash (q : PackageSQL) : Nat :=
  pyHashTuple (liftTuple q.nevra_tuple)

/-! ## Index resolution (`load`) and compression dispatch

`load` fetches and parses `repomd.xml`, selects the
`repo:data[@type=...]/repo:location` descriptor for the requested
backend, resolves the catalog URL, and builds the chosen repository.
Network fetches and the gzip/XML decoding of the primary catalog are
external I/O; their already-decoded results (`xmlData` for the XML
backend, `sqlRows` for the database backend) are passed in explicitly. -/

/-- A `repo:location` child element: its `href` attribute as lxml `.get`
returns it. -/
structure LocationElement where
  href : Option String
  deriving DecidableEq, Repr

/-- A `repo:data` element of `repomd.xml`: its `type` attribute and its
optional `repo:location` child. -/
structure DataElement where
  type_attr : Option String
  location : Option LocationElement
  deriving DecidableEq, Repr

/-- The parsed `repomd.xml` index document: its `repo:data` children in
document order. -/
structure RepomdXml where
  datas : List DataElement
  deriving DecidableEq, Repr

/-- `repomd_xml.find(f'repo:data[@type="{t}"]/repo:location')`: the first
`repo:location` child of a `repo:data` element whose `type` attribute
equals `t`; `none` models lxml's `None` result. -/
def findDataLocation (x : RepomdXml) (t : String) : Option LocationElement :=
  (x.datas.filterMap
    (fun d => if d.type_attr = some t then d.location else Option.none)).head?

/-- `base._replace(path=str(path / href)).geturl()`: resolving the
catalog href against the base URL, modelled as path concatenation (only
the trailing dot-suffix of the result is ever inspected). -/
def urljoin (base href : String) : String := base ++ "/" ++ href

/-- The decompression algorithms `uncompress_dict` can dispatch to. -/
inductive DecompAlgo where
  | bz2
  | gz
  | xz
  deriving DecidableEq, Repr

/-- The `uncompress_dict` lookup inside `uncompress`: maps the
compression-type tag to a decoder, `none` modelling a `KeyError`
(`bz2` and `bz` share the bzip2 decoder). -/
def uncompress_dict (t : String) : Option DecompAlgo :=
  if t = "bz2" then some .bz2
  else if t = "bz" then some .bz2
  else if t = "gz" then some .gz
  else if t = "xz" then some .xz
  else Option.none

/-- `uncompress(source, dest, compression_type)`: dispatches through
`uncompress_dict`; an unknown tag raises `KeyError`. -/
def uncompress (compression_type : String) : Except PyError DecompAlgo :=
  match uncompress_dict compression_type with
  | some a => .ok a
  | Option.none => .error .keyError

/-- Split a character list at every occurrence of `c` (Python
`str.split`): always returns at least one piece, and a trailing
separator yields a trailing empty piece. -/
def splitOnChar (c : Char) : List Char → List (List Char)
  | [] => [[]]
  | x :: xs =>
    let rest := splitOnChar c xs
    if x = c then [] :: rest
    else
      match rest with
      | [] => [[x]]
      | r :: rs => (x :: r) :: rs

/-- `primary_url.split('.')[-1]`: the text after the last dot (the whole
string when it contains no dot). -/
def lastSuffix (url : String) : String :=
  ⟨((splitOnChar '.' url.data).getLast?).getD url.data⟩

/-- Python truthiness of a string: the empty string is falsy. -/
def pyTruthyStr (s : String) : Bool := s ≠ ""

/-- How `RepoSQL.__init__` materialized the sqlite file: downloaded
verbatim, or downloaded and run through one of the decoders. -/
inductive DbMaterialization where
  | copiedVerbatim
  | decompressed (algo : DecompAlgo)
  deriving DecidableEq, Repr

/-- `RepoSQL.__init__`: derives the compression type from the URL's
trailing suffix (`None` for `sqlite`), downloads, and either copies the
file verbatim or decompresses it; a `KeyError` from `uncompress` is
re-raised as `ValueError('Unknown compression type: ...')`.  The
download and the sqlite connection are external I/O; `rows` is the
resulting table content. -/
def repoSQLInit (baseurl primary_url : String) (rows : List Row) :
    Except PyError (RepoSQL × DbMaterialization) :=
  let suffix := lastSuffix primary_url
  let compression_type : Option String :=
    if suffix ≠ "sqlite" then some suffix else Option.none
  match compression_type with
  | some ct =>
    if pyTruthyStr ct then
      match uncompress ct with
      | .ok a => .ok (⟨baseurl, rows⟩, .decompressed a)
      | .error _ =>
        .error (.valueError ("Unknown compression type: " ++ ct))
    else .ok (⟨baseurl, rows⟩, .copiedVerbatim)
  | Option.none => .ok (⟨baseurl, rows⟩, .copiedVerbatim)

/-- The value `load` returns: one of the two repository variants (with,
for the database variant, how its file was materialized). -/
inductive LoadedRepo where
  | xml (r : Repo)
  | sql (r : RepoSQL) (m : DbMaterialization)
  deriving DecidableEq, Repr

/-- `load(baseurl, use_sql)`: selects the descriptor whose `type` equals
`primary_db`/`primary`, resolves its href, and constructs the requested
repository.  A missing descriptor makes `primary_element` `None`, so
`.get('href')` raises `AttributeError`; a descriptor without an `href`
makes `path / None` raise `TypeError`.  `xmlData` is the gunzipped,
parsed primary.xml and `sqlRows` the downloaded table content. -/
def load (baseurl : String) (use_sql : Bool) (repomd_xml : RepomdXml)
    (xmlData : MetadataElement) (sqlRows : List Row) :
    Except PyError LoadedRepo :=
  let primary_file := if use_sql then "primary_db" else "primary"
  match findDataLocation repomd_xml primary_file with
  | Option.none => .error .attributeError
  | some loc =>
    match loc.href with
    | Option.none => .error .typeError
    | some href =>
      let primary_url := urljoin baseurl href
      if use_sql then
        (repoSQLInit baseurl primary_url sqlRows).map
          (fun rm => .sql rm.1 rm.2)
      else .ok (.xml ⟨baseurl, xmlData⟩)

/-! ## Concrete sample data

Mirrors the repository's test fixtures (`chicken` with epoch `"0"`,
`brisket` with epoch `"1"`), used by the witness theorems. -/

/-- `common:version` element of the `chicken` fixture. -/
def chickenVersionEl : VersionElement := ⟨some "0", some "2.2.10", some "1.fc27"⟩

/-- The `chicken` package element. -/
def chickenElem : PackageElement :=
  ⟨some "chicken", some "noarch", some "Chicken", some "Chicken.",
    some chickenVersionEl⟩

/-- A second `chicken` element: same identity 5-tuple, different
descriptive text. -/
def chickenElemAlt : PackageElement :=
  ⟨some "chicken", some "noarch", some "Smoked chicken", some "Other.",
    some chickenVersionEl⟩

/-- `common:version` element of the `brisket` fixture (epoch `"1"`). -/
def brisketVersionEl : VersionElement := ⟨some "1", some "5.1.1", some "1.fc27"⟩

/-- The `brisket` package element. -/
def brisketElem : PackageElement :=
  ⟨some "brisket", some "noarch", some "Brisket", some "Brisket.",
    some brisketVersionEl⟩

/-- A version element whose `epoch` attribute is absent. -/
def noEpochVersionEl : VersionElement := ⟨Option.none, some "1.0", some "1"⟩

/-- A package element whose `common:version` child has no `epoch`
attribute. -/
def noEpochElem : PackageElement :=
  ⟨some "pulledpork", some "noarch", some "Pork", some "Pork.",
    some noEpochVersionEl⟩

/-- A version element with a non-numeric `epoch` attribute. -/
def weirdVersionEl : VersionElement := ⟨some "notanumber", some "1.0", some "1"⟩

/-- A package element with a non-numeric epoch. -/
def weirdElem : PackageElement :=
  ⟨some "ribs", some "noarch", some "Ribs", some "Ribs.", some weirdVersionEl⟩

/-- A sample parsed primary.xml tree: the root declares
`packages="5"` while actually holding 4 entries. -/
def sampleMetadata : MetadataElement :=
  ⟨some "5", [chickenElem, brisketElem, chickenElemAlt, weirdElem]⟩

/-- A sample XML-backed repository. -/
def sampleRepo : Repo := ⟨"https://example.com", sampleMetadata⟩

/-- A sample `packages` row with the given identity fields. -/
def sampleRow (name version epoch release : String) : Row :=
  ⟨1, "id", name, "noarch", version, epoch, release, "Summary", "Desc",
    "url", "1", "5", "BBQ", "Vend", "grp", "host", "src", 0, 1, "Carl",
    "10", "20", "30", "loc", "", "sha256"⟩

/-- The `PackageSQL` that `packageSQLInit` builds from
`sampleRow name version epoch release`. -/
def samplePkgS (name version epoch release : String) : PackageSQL :=
  ⟨1, "id", name, "noarch", version, epoch, release, "Summary", "Desc",
    "url", "1", some 5, "BBQ", "Vend", "grp", "host", "src", 0, 1, "Carl",
    some 10, some 20, some 30, "loc", "", "sha256"⟩

/-- `chicken` as a table row. -/
def chickenRow : Row := sampleRow "chicken" "2.2.10" "0" "1.fc27"

/-- `brisket` as a table row. -/
def brisketRow : Row := sampleRow "brisket" "5.1.1" "1" "1.fc27"

/-- A row whose epoch column is not integer-parseable. -/
def badEpochRow : Row := sampleRow "ribs" "1.0" "notanumber" "1"

/-- `chicken` as a constructed record. -/
def chickenPkgS : PackageSQL := samplePkgS "chicken" "2.2.10" "0" "1.fc27"

/-- `brisket` as a constructed record. -/
def brisketPkgS : PackageSQL := samplePkgS "brisket" "5.1.1" "1" "1.fc27"

/-- The record constructed from `badEpochRow`. -/
def badEpochPkgS : PackageSQL := samplePkgS "ribs" "1.0" "notanumber" "1"

/-- A record with `chicken`'s identity 5-tuple but different descriptive
fields. -/
def chickenPkgSAlt : PackageSQL :=
  ⟨2, "id2", "chicken", "noarch", "2.2.10", "0", "1.fc27", "Smoked",
    "Other desc", "url2", "2", some 6, "MIT", "V2", "g2", "h2", "s2", 2, 3,
    "Bob", some 11, some 21, some 31, "loc2", "b", "sha1"⟩

/-- A sample database-backed repository. -/
def sampleRepoSQL : RepoSQL := ⟨"https://example.com", [chickenRow, brisketRow]⟩

/-- A `repo:data` descriptor of a type nobody requests here. -/
def filelistsData : DataElement :=
  ⟨some "filelists", some ⟨some "repodata/filelists.xml.gz"⟩⟩

/-- An index document with no `primary` (and no `primary_db`)
descriptor. -/
def sampleRepomdNoPrimary : RepomdXml := ⟨[filelistsData]⟩

/-! ## Helper lemmas -/

/-- Splitting a successful `mapEx` at a cons cell. -/
lemma mapEx_cons_ok {α β : Type} {f : α → Except PyError β} {a : α}
    {l : List α} {ys : List β} (h : mapEx f (a :: l) = .ok ys) :
    ∃ b bs, f a = .ok b ∧ mapEx f l = .ok bs ∧ ys = b :: bs := by
  cases hfa : f a with
  | error e => simp [mapEx, hfa] at h
  | ok b =>
    cases hml : mapEx f l with
    | error e => simp [mapEx, hfa, hml] at h
    | ok bs =>
      simp [mapEx, hfa, hml] at h
      exact ⟨b, bs, rfl, rfl, h.symm⟩

/-- A successful `mapEx` preserves the length. -/
lemma mapEx_length {α β : Type} {f : α → Except PyError β} :
    ∀ {l : List α} {ys : List β}, mapEx f l = .ok ys → ys.length = l.length := by
  intro l
  induction l with
  | nil =>
    intro ys h
    simp [mapEx] at h
    subst h
    rfl
  | cons a t ih =>
    intro ys h
    obtain ⟨b, bs, _, hmt, rfl⟩ := mapEx_cons_ok h
    simp [ih hmt]

/-- A successful `mapEx` turns the last input element into the last
output element (the shape of the `find` methods). -/
lemma mapEx_last {α β : Type} {f : α → Except PyError β} :
    ∀ {l : List α} {ys : List β}, mapEx f l = .ok ys →
      (match l.getLast? with
       | some a => (f a).map some
       | Option.none => .ok Option.none) = .ok ys.getLast? := by
  intro l
  induction l with
  | nil =>
    intro ys h
    simp [mapEx] at h
    subst h
    rfl
  | cons a t ih =>
    intro ys h
    obtain ⟨b, bs, hfa, hmt, rfl⟩ := mapEx_cons_ok h
    cases t with
    | nil =>
      simp [mapEx] at hmt
      subst hmt
      simp [hfa, Except.map]
    | cons c t' =>
      obtain ⟨d, ds, _, _, rfl⟩ := mapEx_cons_ok hmt
      have hih := ih hmt
      rw [List.getLast?_cons_cons]
      exact hih

/-- A successful `mapEx` commutes with filtering, when the output
predicate agrees with the input predicate along `f`. -/
lemma mapEx_filter {α β : Type} {f : α → Except PyError β}
    {p : α → Bool} {q : β → Bool}
    (hpq : ∀ a b, f a = .ok b → q b = p a) :
    ∀ {l : List α} {ys : List β}, mapEx f l = .ok ys →
      mapEx f (l.filter p) = .ok (ys.filter q) := by
  intro l
  induction l with
  | nil =>
    intro ys h
    simp [mapEx] at h
    subst h
    rfl
  | cons a t ih =>
    intro ys h
    obtain ⟨b, bs, hfa, hmt, rfl⟩ := mapEx_cons_ok h
    by_cases hpa : p a = true
    · rw [List.filter_cons_of_pos hpa, List.filter_cons_of_pos
        (by rw [hpq a b hfa]; exact hpa)]
      simp [mapEx, hfa, ih hmt]
    · rw [List.filter_cons_of_neg (by simpa using hpa),
        List.filter_cons_of_neg (by rw [hpq a b hfa]; simpa using hpa)]
      exact ih hmt

/-- Construction preserves the `name` column. -/
lemma packageSQLInit_name {r : Row} {q : PackageSQL}
    (h : packageSQLInit r = .ok q) : q.name = r.name := by
  cases h1 : intIfTruthy r.timeBuild <;>
    cases h2 : intIfTruthy r.sizePackage <;>
      cases h3 : intIfTruthy r.sizeInstalled <;>
        cases h4 : intIfTruthy r.sizeArchive <;>
          simp [packageSQLInit, h1, h2, h3, h4] at h
  rw [← h]

/-- Construction preserves the whole identity 5-tuple. -/
lemma packageSQLInit_nevra_tuple {r : Row} {q : PackageSQL}
    (h : packageSQLInit r = .ok q) :
    q.nevra_tuple = (r.name, r.epoch, r.version, r.release, r.arch) := by
  cases h1 : intIfTruthy r.timeBuild <;>
    cases h2 : intIfTruthy r.sizePackage <;>
      cases h3 : intIfTruthy r.sizeInstalled <;>
        cases h4 : intIfTruthy r.sizeArchive <;>
          simp [packageSQLInit, h1, h2, h3, h4] at h
  rw [← h]
  rfl

/-- `liftTuple` is injective: lifted tuples are equal exactly when the
underlying string tuples are. -/
lemma liftTuple_inj {s t : String × String × String × String × String} :
    liftTuple s = liftTuple t ↔ s = t := by
  obtain ⟨s1, s2, s3, s4, s5⟩ := s
  obtain ⟨t1, t2, t3, t4, t5⟩ := t
  simp [liftTuple]

/-! ## Claim theorems -/

/-- C1: for every repository (XML-backed or database-backed) and every
package name, `find(name)` returns the last element of the sequence
returned by `find_all(name)` when that sequence is non-empty, and the
explicit absent signal `None` (not an error) when it is empty — stated
via `getLast?`, which is the last element for a non-empty list and the
absent signal for the empty list. -/
theorem find_is_last_of_findall
    (rx : Repo) (name : String) (rs : RepoSQL) (l : List PackageSQL)
    (hs : RepoSQL.findallE rs name = .ok l) :
    Repo.find rx name = (Repo.findall rx name).getLast? ∧
    RepoSQL.findE rs name = .ok l.getLast? := by
  constructor
  · unfold Repo.find Repo.findall
    rw [List.getLast?_map]
    cases (rx.xmlMatches name).getLast? <;> rfl
  · have hs' : mapEx packageSQLInit (rs.sqlMatches name) = .ok l := hs
    have hml := mapEx_last hs'
    unfold RepoSQL.findE
    cases hgl : (rs.sqlMatches name).getLast? with
    | none => rw [hgl] at hml; exact hml
    | some row => rw [hgl] at hml; exact hml

/-- Witness for C1: the sample repositories at name `chicken` (one
match) and name `nonexistent` (no match). -/
theorem find_is_last_of_findall_witness :
    RepoSQL.findallE sampleRepoSQL "chicken" = .ok [chickenPkgS] ∧
    Repo.find sampleRepo "chicken" = (Repo.findall sampleRepo "chicken").getLast? ∧
    RepoSQL.findE sampleRepoSQL "chicken" = .ok ([chickenPkgS].getLast?) ∧
    RepoSQL.findallE sampleRepoSQL "nonexistent" = .ok [] ∧
    RepoSQL.findE sampleRepoSQL "nonexistent" = .ok (([] : List PackageSQL).getLast?) := by
  have h1 : RepoSQL.findallE sampleRepoSQL "chicken" = .ok [chickenPkgS] := rfl
  have h2 : RepoSQL.findallE sampleRepoSQL "nonexistent" = .ok [] := rfl
  exact ⟨h1, (find_is_last_of_findall sampleRepo "chicken" sampleRepoSQL [chickenPkgS] h1).1,
    (find_is_last_of_findall sampleRepo "chicken" sampleRepoSQL [chickenPkgS] h1).2,
    h2, (find_is_last_of_findall sampleRepo "nonexistent" sampleRepoSQL [] h2).2⟩

/-- C2: for catalog records `a` and `b` of either backend, `a == b`
holds exactly when their identity 5-tuples (name, epoch, version,
release, architecture) are equal — the quantification over arbitrary
records makes equality independent of all other fields — and whenever
`a == b`, the hashes agree. -/
theorem eq_iff_nevra_tuple_and_hash_consistent
    (a b : Package) (ta tb : NevraTuple)
    (ha : a.nevra_tupleE = .ok ta) (hb : b.nevra_tupleE = .ok tb)
    (sa sb : PackageSQL) :
    (Package.eqV a (.pkgXml b) = .ok true ↔ ta = tb) ∧
    (Package.eqV a (.pkgXml b) = .ok true → Package.hashE a = Package.hashE b) ∧
    (PackageSQL.eqV sa (.pkgSql sb) = .ok true ↔ sa.nevra_tuple = sb.nevra_tuple) ∧
    (PackageSQL.eqV sa (.pkgSql sb) = .ok true → PackageSQL.hash sa = PackageSQL.hash sb) ∧
    (Package.eqV a (.pkgSql sb) = .ok true ↔ ta = liftTuple sb.nevra_tuple) := by
  have hx : Package.eqV a (.pkgXml b) = .ok (decide (ta = tb)) := by
    simp [Package.eqV, PyValue.nevraTupleE, ha, hb]
  have hxs : Package.eqV a (.pkgSql sb) =
      .ok (decide (ta = liftTuple sb.nevra_tuple)) := by
    simp [Package.eqV, PyValue.nevraTupleE, ha]
  have hss : PackageSQL.eqV sa (.pkgSql sb) =
      .ok (decide (liftTuple sa.nevra_tuple = liftTuple sb.nevra_tuple)) := rfl
  refine ⟨?_, ?_, ?_, ?_, ?_⟩
  · rw [hx]
    constructor
    · intro h
      injection h with h1
      exact of_decide_eq_true h1
    · intro h
      rw [h]
      simp
  · intro h
    rw [hx] at h
    injection h with h1
    have h2 : ta = tb := of_decide_eq_true h1
    simp [Package.hashE, ha, hb, h2]
  · rw [hss]
    constructor
    · intro h
      injection h with h1
      exact liftTuple_inj.mp (of_decide_eq_true h1)
    · intro h
      rw [h]
      simp
  · intro h
    rw [hss] at h
    injection h with h1
    have h2 := of_decide_eq_true h1
    simp [PackageSQL.hash, h2]
  · rw [hxs]
    constructor
    · intro h
      injection h with h1
      exact of_decide_eq_true h1
    · intro h
      rw [h]
      simp

/-- Witness for C2: two XML records and two database records with the
same 5-tuple but different descriptive fields compare equal and hash
identically. -/
theorem eq_iff_nevra_tuple_and_hash_consistent_witness :
    Package.eqV (Package.mk chickenElem) (.pkgXml (Package.mk chickenElemAlt)) = .ok true ∧
    Package.hashE (Package.mk chickenElem) = Package.hashE (Package.mk chickenElemAlt) ∧
    PackageSQL.eqV chickenPkgS (.pkgSql chickenPkgSAlt) = .ok true ∧
    PackageSQL.hash chickenPkgS = PackageSQL.hash chickenPkgSAlt := by
  have h := eq_iff_nevra_tuple_and_hash_consistent
    (Package.mk chickenElem) (Package.mk chickenElemAlt)
    (some "chicken", some "0", some "2.2.10", some "1.fc27", some "noarch")
    (some "chicken", some "0", some "2.2.10", some "1.fc27", some "noarch")
    rfl rfl chickenPkgS chickenPkgSAlt
  have he := h.1.mpr rfl
  have hs := h.2.2.1.mpr rfl
  exact ⟨he, h.2.1 he, hs, h.2.2.2.1 hs⟩

/-- C3: for every record of either backend whose epoch string parses to
integer zero, `evr` equals `vr`; when the epoch parses to a nonzero
integer, `evr` equals `"{epoch}:{version}-{release}"`. -/
theorem evr_epoch_suppression
    (p : Package) (vi : VersionElement) (e : String) (n : Int)
    (hv : p._element.version = some vi) (he : vi.epoch = some e)
    (hn : pyInt e = some n)
    (q : PackageSQL) (m : Int) (hq : pyInt q.epoch = some m) :
    (n = 0 → Package.evrE p = Package.vrE p) ∧
    (n ≠ 0 → Package.evrE p = .ok (e ++ ":" ++ fstr vi.ver ++ "-" ++ fstr vi.rel)) ∧
    (m = 0 → PackageSQL.evrE q = .ok q.vr) ∧
    (m ≠ 0 → PackageSQL.evrE q = .ok (q.epoch ++ ":" ++ q.version ++ "-" ++ q.release)) := by
  refine ⟨?_, ?_, ?_, ?_⟩
  · intro h0
    subst h0
    simp [Package.evrE, Package.vrE, hv, he, hn]
  · intro h0
    simp [Package.evrE, hv, he, hn, h0]
  · intro h0
    subst h0
    simp [PackageSQL.evrE, hq]
  · intro h0
    simp [PackageSQL.evrE, hq, h0]

/-- Witness for C3: `chicken` (epoch `"0"`) suppresses the epoch;
`brisket` (epoch `"1"`) renders it. -/
theorem evr_epoch_suppression_witness :
    Package.evrE (Package.mk chickenElem) = Package.vrE (Package.mk chickenElem) ∧
    PackageSQL.evrE brisketPkgS = .ok "1:5.1.1-1.fc27" := by
  have h := evr_epoch_suppression (Package.mk chickenElem) chickenVersionEl "0" 0
    rfl rfl rfl brisketPkgS 1 rfl
  exact ⟨h.1 rfl, (h.2.2.2 (by decide)).trans rfl⟩

/-- C4: when the parsed index document has no catalog-artifact
descriptor whose `type` attribute equals the requested backend's tag
(`primary` / `primary_db`), `load` fails — the missing descriptor makes
the lookup return `None` and the subsequent attribute access raise
(this failure is the spec's `CatalogNotFoundError`) — and no repository
value is returned. -/
theorem load_missing_descriptor_fails
    (baseurl : String) (use_sql : Bool) (x : RepomdXml)
    (xmlData : MetadataElement) (rows : List Row)
    (h : ∀ d ∈ x.datas,
      d.type_attr ≠ some (if use_sql then "primary_db" else "primary")) :
    load baseurl use_sql x xmlData rows = .error .attributeError := by
  have hfd : findDataLocation x (if use_sql then "primary_db" else "primary") =
      Option.none := by
    unfold findDataLocation
    rw [List.filterMap_eq_nil_iff.mpr ?_]
    · rfl
    · intro d hd
      simp [h d hd]
  simp [load, hfd]

/-- Witness for C4: an index containing only a `filelists` descriptor. -/
theorem load_missing_descriptor_fails_witness :
    load "https://example.com" false sampleRepomdNoPrimary sampleMetadata [] =
      .error .attributeError :=
  load_missing_descriptor_fails "https://example.com" false sampleRepomdNoPrimary
    sampleMetadata [] (by decide)

/-- C5 counterexample: the XML epoch accessor does not default a missing
`epoch` attribute to `"0"` — it returns the absent value `None` — and an
attribute that is present is returned verbatim even when it is not a
string of digits. -/
theorem epoch_default_counterexample :
    Package.epochE (Package.mk noEpochElem) = .ok Option.none ∧
    Package.epochE (Package.mk noEpochElem) ≠ .ok (some "0") ∧
    Package.epochE (Package.mk weirdElem) = .ok (some "notanumber") ∧
    ("notanumber".toList.all Char.isDigit) = false := by
  refine ⟨rfl, ?_, rfl, by decide⟩
  intro hc
  injection hc with h1
  exact Option.noConfusion h1

/-- C5 (amended): the XML epoch accessor returns the raw `epoch`
attribute value of the `common:version` element — the attribute string
verbatim when present, and the absent value `None` (not `"0"`) when the
source XML omits it. -/
theorem epoch_returns_raw_attribute
    (p : Package) (vi : VersionElement) (s : String)
    (hv : p._element.version = some vi) :
    (vi.epoch = Option.none → Package.epochE p = .ok Option.none) ∧
    (vi.epoch = some s → Package.epochE p = .ok (some s)) := by
  constructor <;> intro he <;> simp [Package.epochE, hv, he]

/-- Witness for C5 (amended): an element without the attribute and one
with a non-numeric attribute. -/
theorem epoch_returns_raw_attribute_witness :
    Package.epochE (Package.mk noEpochElem) = .ok Option.none ∧
    Package.epochE (Package.mk weirdElem) = .ok (some "notanumber") :=
  ⟨(epoch_returns_raw_attribute (Package.mk noEpochElem) noEpochVersionEl "x" rfl).1 rfl,
   (epoch_returns_raw_attribute (Package.mk weirdElem) weirdVersionEl "notanumber" rfl).2 rfl⟩

/-- C6: for the database backend, an artifact URL whose trailing
filename suffix is neither in the supported set `{bz2, bz, gz, xz}` nor
the uncompressed `sqlite` case (an empty suffix is the spec's
absent-suffix/uncompressed case) makes construction fail with the
unsupported-compression error carrying the offending suffix — the
`Except.error` result means no repository value is produced — while a
`sqlite` suffix yields a repository whose artifact was copied verbatim
without decompression. -/
theorem unsupported_compression_fails
    (baseurl url : String) (rows : List Row) (suffix : String)
    (hs : lastSuffix url = suffix) :
    (suffix ∉ (["bz2", "bz", "gz", "xz"] : List String) → suffix ≠ "sqlite" →
      suffix ≠ "" →
      repoSQLInit baseurl url rows =
        .error (.valueError ("Unknown compression type: " ++ suffix))) ∧
    (suffix = "sqlite" →
      repoSQLInit baseurl url rows = .ok (⟨baseurl, rows⟩, .copiedVerbatim)) := by
  constructor
  · intro hmem hsq hemp
    have h1 : suffix ≠ "bz2" := by intro hx; exact hmem (by simp [hx])
    have h2 : suffix ≠ "bz" := by intro hx; exact hmem (by simp [hx])
    have h3 : suffix ≠ "gz" := by intro hx; exact hmem (by simp [hx])
    have h4 : suffix ≠ "xz" := by intro hx; exact hmem (by simp [hx])
    have hdict : uncompress_dict suffix = Option.none := by
      simp [uncompress_dict, h1, h2, h3, h4]
    simp [repoSQLInit, hs, hsq, pyTruthyStr, hemp, uncompress, hdict]
  · intro hsq
    subst hsq
    simp [repoSQLInit, hs]

/-- Witness for C6: an unknown suffix `foo` fails carrying `foo`; a bare
`.sqlite` URL is copied verbatim. -/
theorem unsupported_compression_fails_witness :
    repoSQLInit "https://example.com" "https://example.com/repodata/primary.sqlite.foo" [] =
      .error (.valueError ("Unknown compression type: " ++ "foo")) ∧
    repoSQLInit "https://example.com" "https://example.com/repodata/primary.sqlite" [] =
      .ok (⟨"https://example.com", []⟩, .copiedVerbatim) :=
  ⟨(unsupported_compression_fails "https://example.com"
      "https://example.com/repodata/primary.sqlite.foo" [] "foo" rfl).1
      (by decide) (by decide) (by decide),
   (unsupported_compression_fails "https://example.com"
      "https://example.com/repodata/primary.sqlite" [] "sqlite" rfl).2 rfl⟩

/-- C7: a record whose epoch field is not an integer-parseable string is
constructed without error (XML construction just binds the element;
database construction parses only the time/size columns), but accessing
any derived version string that consults the epoch (`evr`, `nevr`,
`nevra`) fails with the formatting `ValueError` at that point. -/
theorem format_error_at_formatting_not_construction
    (p : Package) (vi : VersionElement) (e : String)
    (hv : p._element.version = some vi) (he : vi.epoch = some e)
    (hn : pyInt e = Option.none)
    (r : Row) (q : PackageSQL) (hq : packageSQLInit r = .ok q)
    (hqe : pyInt q.epoch = Option.none) :
    Package.evrE p = .error (.valueError e) ∧
    Package.nevrE p = .error (.valueError e) ∧
    Package.nevraE p = .error (.valueError e) ∧
    q.epoch = r.epoch ∧
    PackageSQL.evrE q = .error (.valueError q.epoch) ∧
    PackageSQL.nevrE q = .error (.valueError q.epoch) ∧
    PackageSQL.nevraE q = .error (.valueError q.epoch) := by
  have hevr : Package.evrE p = .error (.valueError e) := by
    simp [Package.evrE, hv, he, hn]
  have hqevr : PackageSQL.evrE q = .error (.valueError q.epoch) := by
    simp [PackageSQL.evrE, hqe]
  have hepoch : q.epoch = r.epoch :=
    congrArg (fun t => t.2.1) (packageSQLInit_nevra_tuple hq)
  refine ⟨hevr, ?_, ?_, hepoch, hqevr, ?_, ?_⟩
  · simp [Package.nevrE, hevr, Except.map]
  · simp [Package.nevraE, Package.nevrE, hevr, Except.map]
  · simp [PackageSQL.nevrE, hqevr, Except.map]
  · simp [PackageSQL.nevraE, PackageSQL.nevrE, hqevr, Except.map]

/-- Witness for C7: the `ribs` record (epoch `"notanumber"`) on both
backends — the database row constructs successfully and formatting
fails. -/
theorem format_error_at_formatting_not_construction_witness :
    packageSQLInit badEpochRow = .ok badEpochPkgS ∧
    Package.evrE (Package.mk weirdElem) = .error (.valueError "notanumber") ∧
    PackageSQL.evrE badEpochPkgS = .error (.valueError badEpochPkgS.epoch) := by
  have h := format_error_at_formatting_not_construction (Package.mk weirdElem)
    weirdVersionEl "notanumber" rfl rfl rfl badEpochRow badEpochPkgS rfl rfl
  exact ⟨rfl, h.1, h.2.2.2.2.1⟩

/-- C8: for every repository of either backend and every name,
`find_all(name)` equals the result of filtering `iterate()` to the
records whose name field equals the given name, in the same
backend-native order (the empty list — not an error — when nothing
matches, by the filter equation). -/
theorem findall_eq_filter_iterate
    (rx : Repo) (name : String) (rs : RepoSQL) (ps : List PackageSQL)
    (hs : RepoSQL.iterE rs = .ok ps) :
    Repo.findall rx name =
      (Repo.iter rx).filter (fun p => decide (p.name = some name)) ∧
    RepoSQL.findallE rs name =
      .ok (ps.filter (fun q => decide (q.name = name))) := by
  constructor
  · unfold Repo.findall Repo.iter Repo.xmlMatches
    rw [List.filter_map]
    rfl
  · have hs' : mapEx packageSQLInit rs.rows = .ok ps := hs
    exact mapEx_filter
      (fun a b hab => by rw [packageSQLInit_name hab]) hs'

/-- Witness for C8: the sample repositories at names `chicken` (two XML
matches, one database match) and `nonexistent` (no match). -/
theorem findall_eq_filter_iterate_witness :
    RepoSQL.iterE sampleRepoSQL = .ok [chickenPkgS, brisketPkgS] ∧
    Repo.findall sampleRepo "chicken" =
      (Repo.iter sampleRepo).filter (fun p => decide (p.name = some "chicken")) ∧
    RepoSQL.findallE sampleRepoSQL "chicken" =
      .ok ([chickenPkgS, brisketPkgS].filter (fun q => decide (q.name = "chicken"))) ∧
    RepoSQL.findallE sampleRepoSQL "nonexistent" =
      .ok ([chickenPkgS, brisketPkgS].filter (fun q => decide (q.name = "nonexistent"))) := by
  have h1 := findall_eq_filter_iterate sampleRepo "chicken" sampleRepoSQL
    [chickenPkgS, brisketPkgS] rfl
  have h2 := findall_eq_filter_iterate sampleRepo "nonexistent" sampleRepoSQL
    [chickenPkgS, brisketPkgS] rfl
  exact ⟨rfl, h1.1, h1.2, h2.2⟩

/-- C9: for an XML-backed repository, `length()` is the integer value of
the `packages` attribute declared on the tree root (trusted as declared,
for any list of actual entries — the statement holds for every `r` with
that attribute, whatever its children); for a database-backed
repository, `length()` is the row count of the `packages` table, which
also equals the number of records iteration yields. -/
theorem length_declared_count
    (r : Repo) (s : String) (n : Int)
    (hattr : r._metadata.packages = some s) (hn : pyInt s = some n)
    (rs : RepoSQL) (ps : List PackageSQL) (hit : RepoSQL.iterE rs = .ok ps) :
    Repo.lenE r = .ok n ∧
    RepoSQL.len rs = rs.rows.length ∧
    RepoSQL.len rs = ps.length := by
  refine ⟨by simp [Repo.lenE, hattr, hn], rfl, ?_⟩
  unfold RepoSQL.len
  exact (mapEx_length hit).symm

/-- Witness for C9: the sample XML repository declares `packages="5"`
while holding 4 entries — `length()` trusts the declared 5 — and the
sample database repository has 2 rows. -/
theorem length_declared_count_witness :
    Repo.lenE sampleRepo = .ok 5 ∧
    (Repo.iter sampleRepo).length = 4 ∧
    RepoSQL.len sampleRepoSQL = 2 := by
  have h := length_declared_count sampleRepo "5" 5 rfl rfl sampleRepoSQL
    [chickenPkgS, brisketPkgS] rfl
  exact ⟨h.1, rfl, h.2.2.trans rfl⟩

/-- C10 (implicit): comparing a record of either backend for equality
with an object that does not expose the record 5-tuple (a string, an
integer, or `None`) raises `AttributeError` — it neither evaluates to
false nor returns a not-implemented signal. -/
theorem eq_non_record_attribute_error
    (p : Package) (q : PackageSQL) (s : String) (n : Int) :
    Package.eqV p (.vStr s) = .error .attributeError ∧
    Package.eqV p (.vInt n) = .error .attributeError ∧
    Package.eqV p .vNone = .error .attributeError ∧
    PackageSQL.eqV q (.vStr s) = .error .attributeError ∧
    PackageSQL.eqV q (.vInt n) = .error .attributeError ∧
    PackageSQL.eqV q .vNone = .error .attributeError := by
  have hx : ∀ v : PyValue, v.nevraTupleE = .error .attributeError →
      Package.eqV p v = .error .attributeError := by
    intro v hv
    cases hver : p._element.version with
    | none => simp [Package.eqV, Package.nevra_tupleE, hver]
    | some vi => simp [Package.eqV, Package.nevra_tupleE, hver, hv]
  have hq : ∀ v : PyValue, v.nevraTupleE = .error .attributeError →
      PackageSQL.eqV q v = .error .attributeError := by
    intro v hv
    simp [PackageSQL.eqV, hv]
  exact ⟨hx _ rfl, hx _ rfl, hx _ rfl, hq _ rfl, hq _ rfl, hq _ rfl⟩

end Repomd
